import Mathlib

/-!
Verification of `hermpy.boundary_crossings` (HermeanToolbelt).

Shallow embedding conventions:
* Timestamps (`datetime.datetime`) are rationals, measured in seconds from an
  arbitrary epoch; timedelta subtraction, `.total_seconds()` and division by 60
  become rational arithmetic.
* The matplotlib axis is modelled as the list of artifacts drawn on it; calls
  `ax.text(...)` and `ax.axvline(...)` append an `Artifact` to that list.
* Python exceptions are modelled with `Except`: a division whose denominator is
  zero raises `ZeroDivisionError` (modelled by `tryDiv`), file and schema
  failures in `Load_Crossings` are modelled by `LoadError`.
* A pickled pandas record is modelled by `SourceRecord`: each column that the
  docstring of `Load_Crossings` names is an optional aligned list (absent
  column = `none`; subscripting an absent column raises `KeyError`, modelled as
  `LoadError.schemaError`).
-/

namespace hermpy

/-- Python runtime errors that the plotting code can raise. -/
inductive PyError where
  | zeroDivisionError
  deriving DecidableEq, Repr

/-- One row of the DataFrame produced by `Load_Crossings`: exactly the six
columns `start, end, start_x_msm, start_y_msm, start_z_msm, type`. -/
structure CrossingRow where
  start : ℚ
  «end» : ℚ
  start_x_msm : ℚ
  start_y_msm : ℚ
  start_z_msm : ℚ
  type : String
  deriving DecidableEq, Repr

/-- A drawing primitive added to a matplotlib axis: `ax.text(x, y, s, color=c)`
(in axis-relative coordinates, `transform=ax.transAxes`) or
`ax.axvline(x, color=c, ls=l)` (in data coordinates). -/
inductive Artifact where
  | text (x : ℚ) (y : ℚ) (s : String) (color : String)
  | axvline (x : ℚ) (color : String) (ls : String)
  deriving DecidableEq, Repr

/-- Python float division: raises `ZeroDivisionError` on a zero denominator. -/
def tryDiv (a b : ℚ) : Except PyError ℚ :=
  if b = 0 then Except.error PyError.zeroDivisionError else Except.ok (a / b)

/-- Python `str.upper()`: uppercase each character (the label strings involved
are ASCII, where Lean's `Char.toUpper` agrees with Python). -/
def pyUpper (s : String) : String := String.mk (s.data.map Char.toUpper)

/-- Python `str.replace(pat, repl)` for a one-character pattern and
replacement: substitute each occurrence characterwise. -/
def pyReplace (s : String) (pat repl : Char) : String :=
  String.mk (s.data.map (fun c => if c = pat then repl else c))

/-- The underscore character, `"_"` in the source. -/
def underscoreChar : Char := Char.ofNat 95

/-- The space character, `" "` in the source. -/
def spaceChar : Char := Char.ofNat 32

/-- `row["type"].upper().replace("_", " ")`: the label text drawn for a row. -/
def labelText (ty : String) : String :=
  pyReplace (pyUpper ty) underscoreChar spaceChar

/-- Body of the loop of `Plot_Crossing_Intervals` for a single `row`:
the artifacts the iteration appends to the axis (or the exception it raises).
`start`/`stop` are the plotted-window bounds (`start`/`end` in the source). -/
def rowArtifactsAbs (start stop : ℚ) (label : Bool) (color : String)
    (row : CrossingRow) : Except PyError (List Artifact) :=
  if (row.start > start ∧ row.start < stop) ∨ (row.«end» > start ∧ row.«end» < stop) then
    let midpoint := row.start + (row.«end» - row.start) / 2
    match (if label then
            (tryDiv (midpoint - start) (stop - start)).map
              (fun x => [Artifact.text x (9/10) (labelText row.type) color])
          else Except.ok []) with
    | Except.error e => Except.error e
    | Except.ok textArts =>
        Except.ok (textArts ++ [Artifact.axvline row.start color "dashed",
                                Artifact.axvline row.«end» color "dashed"])
  else Except.ok []

/-- Body of the loop of `Plot_Crossings_As_Minutes_Before` for a single `row`. -/
def rowArtifactsRel (data_start data_end apoapsis_time : ℚ) (label : Bool)
    (height : ℚ) (color : String) (row : CrossingRow) :
    Except PyError (List Artifact) :=
  if (row.start > data_start ∧ row.start < data_end) ∨
      (row.«end» > data_start ∧ row.«end» < data_end) then
    let midpoint := row.start + (row.«end» - row.start) / 2
    let start_minutes := (apoapsis_time - row.start) / 60
    let end_minutes := (apoapsis_time - row.«end») / 60
    match (if label then
            (tryDiv (midpoint - data_start) (data_end - data_start)).map
              (fun x => [Artifact.text x height (labelText row.type) color])
          else Except.ok []) with
    | Except.error e => Except.error e
    | Except.ok textArts =>
        Except.ok (textArts ++ [Artifact.axvline start_minutes color "dashed",
                                Artifact.axvline end_minutes color "dashed"])
  else Except.ok []

/-- The `for _, row in crossings.iterrows():` loop of `Plot_Crossing_Intervals`,
threading the axis state. -/
def plotLoopAbs (start stop : ℚ) (label : Bool) (color : String)
    (ax : List Artifact) : List CrossingRow → Except PyError (List Artifact)
  | [] => Except.ok ax
  | row :: rest =>
      match rowArtifactsAbs start stop label color row with
      | Except.error e => Except.error e
      | Except.ok arts => plotLoopAbs start stop label color (ax ++ arts) rest

/-- `Plot_Crossing_Intervals(ax, start, end, crossings, label, color)`:
returns the final artifact list of the axis (initially `ax`), or the
exception raised. -/
def Plot_Crossing_Intervals (ax : List Artifact) (start stop : ℚ)
    (crossings : List CrossingRow) (label : Bool) (color : String) :
    Except PyError (List Artifact) :=
  plotLoopAbs start stop label color ax crossings

/-- The row loop of `Plot_Crossings_As_Minutes_Before`, threading the axis. -/
def plotLoopRel (data_start data_end apoapsis_time : ℚ) (label : Bool)
    (height : ℚ) (color : String) (ax : List Artifact) :
    List CrossingRow → Except PyError (List Artifact)
  | [] => Except.ok ax
  | row :: rest =>
      match rowArtifactsRel data_start data_end apoapsis_time label height color row with
      | Except.error e => Except.error e
      | Except.ok arts =>
          plotLoopRel data_start data_end apoapsis_time label height color (ax ++ arts) rest

/-- `Plot_Crossings_As_Minutes_Before(ax, crossings, data_start, data_end,
apoapsis_time, label, height, color)`. -/
def Plot_Crossings_As_Minutes_Before (ax : List Artifact)
    (crossings : List CrossingRow) (data_start data_end apoapsis_time : ℚ)
    (label : Bool) (height : ℚ) (color : String) :
    Except PyError (List Artifact) :=
  plotLoopRel data_start data_end apoapsis_time label height color ax crossings

/-- The decoded pickle record: every column named by the docstring of
`Load_Crossings`, each optionally present as an aligned list. -/
structure SourceRecord where
  start? : Option (List ℚ)
  end? : Option (List ℚ)
  start_x_msm? : Option (List ℚ)
  end_x_msm? : Option (List ℚ)
  start_y_msm? : Option (List ℚ)
  end_y_msm? : Option (List ℚ)
  start_z_msm? : Option (List ℚ)
  end_z_msm? : Option (List ℚ)
  Type? : Option (List String)
  deriving DecidableEq, Repr

/-- Outcome of `open(path, "rb")` followed by `pickle.load`: the file is
missing/unreadable, the bytes are not a valid pickled record, or a record
was decoded. -/
inductive PickleFile where
  | notFound
  | malformed
  | decoded (rec : SourceRecord)

/-- Errors `Load_Crossings` raises: `FileNotFoundError` from `open`,
`pickle.UnpicklingError` from `pickle.load`, `KeyError` from subscripting a
missing column (the spec names them NotFoundError / DeserializationError /
SchemaError). -/
inductive LoadError where
  | notFoundError
  | deserializationError
  | schemaError
  deriving DecidableEq, Repr

/-- Row-wise view of the columnar `pd.DataFrame({...})` construction: zips the
six projected columns into rows. -/
def buildRows : List ℚ → List ℚ → List ℚ → List ℚ → List ℚ → List String →
    List CrossingRow
  | s :: ss, e :: es, x :: xs, y :: ys, z :: zs, t :: ts =>
      ⟨s, e, x, y, z, t⟩ :: buildRows ss es xs ys zs ts
  | _, _, _, _, _, _ => []

/-- `Load_Crossings(path)`: deserialize the pickle, then project/rename the
columns `start, end, start_x_msm, start_y_msm, start_z_msm, Type` into the
six-column DataFrame (the `end_*_msm` columns are not carried over). -/
def Load_Crossings (file : PickleFile) : Except LoadError (List CrossingRow) :=
  match file with
  | PickleFile.notFound => Except.error LoadError.notFoundError
  | PickleFile.malformed => Except.error LoadError.deserializationError
  | PickleFile.decoded rec =>
    match rec.start?, rec.end?, rec.start_x_msm?, rec.start_y_msm?,
        rec.start_z_msm?, rec.Type? with
    | some s, some e, some sx, some sy, some sz, some t =>
        Except.ok (buildRows s e sx sy sz t)
    | _, _, _, _, _, _ => Except.error LoadError.schemaError

/-! ### Characterization helpers

The selection guard implies `start < stop`, so the division in the label
placement can never raise: each loop body is equivalent to a pure artifact
list, which the lemmas below establish. -/

/-- The selection test shared by both overlay loops. -/
def selected (lo hi : ℚ) (row : CrossingRow) : Prop :=
  (row.start > lo ∧ row.start < hi) ∨ (row.«end» > lo ∧ row.«end» < hi)

instance (lo hi : ℚ) (row : CrossingRow) : Decidable (selected lo hi row) := by
  unfold selected; infer_instance

/-- Pure value of one `Plot_Crossing_Intervals` loop iteration. -/
def rowValAbs (start stop : ℚ) (label : Bool) (color : String)
    (row : CrossingRow) : List Artifact :=
  if selected start stop row then
    (if label then
        [Artifact.text ((row.start + (row.«end» - row.start) / 2 - start) / (stop - start))
          (9/10) (labelText row.type) color]
      else [])
      ++ [Artifact.axvline row.start color "dashed",
          Artifact.axvline row.«end» color "dashed"]
  else []

/-- Pure value of one `Plot_Crossings_As_Minutes_Before` loop iteration. -/
def rowValRel (data_start data_end apoapsis_time : ℚ) (label : Bool)
    (height : ℚ) (color : String) (row : CrossingRow) : List Artifact :=
  if selected data_start data_end row then
    (if label then
        [Artifact.text
          ((row.start + (row.«end» - row.start) / 2 - data_start) / (data_end - data_start))
          height (labelText row.type) color]
      else [])
      ++ [Artifact.axvline ((apoapsis_time - row.start) / 60) color "dashed",
          Artifact.axvline ((apoapsis_time - row.«end») / 60) color "dashed"]
  else []

lemma selected_lt {lo hi : ℚ} {row : CrossingRow} (h : selected lo hi row) :
    lo < hi := by
  rcases h with ⟨h1, h2⟩ | ⟨h1, h2⟩ <;> exact lt_trans h1 h2

lemma rowArtifactsAbs_eq (start stop : ℚ) (label : Bool) (color : String)
    (row : CrossingRow) :
    rowArtifactsAbs start stop label color row =
      Except.ok (rowValAbs start stop label color row) := by
  by_cases hsel : selected start stop row
  · have hne : stop - start ≠ 0 := sub_ne_zero.mpr (ne_of_gt (selected_lt hsel))
    have hsel' := hsel
    unfold selected at hsel'
    cases label <;>
      simp [rowArtifactsAbs, rowValAbs, hsel, hsel', tryDiv, hne, Except.map]
  · have hsel' := hsel
    unfold selected at hsel'
    simp [rowArtifactsAbs, rowValAbs, hsel, hsel']

lemma rowArtifactsRel_eq (data_start data_end apoapsis_time : ℚ) (label : Bool)
    (height : ℚ) (color : String) (row : CrossingRow) :
    rowArtifactsRel data_start data_end apoapsis_time label height color row =
      Except.ok (rowValRel data_start data_end apoapsis_time label height color row) := by
  by_cases hsel : selected data_start data_end row
  · have hne : data_end - data_start ≠ 0 :=
      sub_ne_zero.mpr (ne_of_gt (selected_lt hsel))
    have hsel' := hsel
    unfold selected at hsel'
    cases label <;>
      simp [rowArtifactsRel, rowValRel, hsel, hsel', tryDiv, hne, Except.map]
  · have hsel' := hsel
    unfold selected at hsel'
    simp [rowArtifactsRel, rowValRel, hsel, hsel']

lemma plotLoopAbs_eq (start stop : ℚ) (label : Bool) (color : String) :
    ∀ (rows : List CrossingRow) (ax : List Artifact),
      plotLoopAbs start stop label color ax rows =
        Except.ok (ax ++ (rows.map (rowValAbs start stop label color)).flatten)
  | [], ax => by simp [plotLoopAbs]
  | row :: rest, ax => by
      simp only [plotLoopAbs, rowArtifactsAbs_eq, List.map_cons, List.flatten_cons]
      rw [plotLoopAbs_eq start stop label color rest]
      simp [List.append_assoc]

lemma plotLoopRel_eq (data_start data_end apoapsis_time : ℚ) (label : Bool)
    (height : ℚ) (color : String) :
    ∀ (rows : List CrossingRow) (ax : List Artifact),
      plotLoopRel data_start data_end apoapsis_time label height color ax rows =
        Except.ok
          (ax ++ (rows.map (rowValRel data_start data_end apoapsis_time label height color)).flatten)
  | [], ax => by simp [plotLoopRel]
  | row :: rest, ax => by
      simp only [plotLoopRel, rowArtifactsRel_eq, List.map_cons, List.flatten_cons]
      rw [plotLoopRel_eq data_start data_end apoapsis_time label height color rest]
      simp [List.append_assoc]

lemma Plot_Crossing_Intervals_eq (ax : List Artifact) (start stop : ℚ)
    (crossings : List CrossingRow) (label : Bool) (color : String) :
    Plot_Crossing_Intervals ax start stop crossings label color =
      Except.ok (ax ++ (crossings.map (rowValAbs start stop label color)).flatten) :=
  plotLoopAbs_eq start stop label color crossings ax

lemma Plot_Crossings_As_Minutes_Before_eq (ax : List Artifact)
    (crossings : List CrossingRow) (data_start data_end apoapsis_time : ℚ)
    (label : Bool) (height : ℚ) (color : String) :
    Plot_Crossings_As_Minutes_Before ax crossings data_start data_end apoapsis_time
        label height color =
      Except.ok
        (ax ++ (crossings.map
          (rowValRel data_start data_end apoapsis_time label height color)).flatten) :=
  plotLoopRel_eq data_start data_end apoapsis_time label height color crossings ax

lemma selected_iff (lo hi : ℚ) (row : CrossingRow) :
    selected lo hi row ↔
      ((lo < row.start ∧ row.start < hi) ∨ (lo < row.«end» ∧ row.«end» < hi)) :=
  Iff.rfl

lemma rowValAbs_of_not_sel {start stop : ℚ} {label : Bool} {color : String}
    {row : CrossingRow} (h : ¬ selected start stop row) :
    rowValAbs start stop label color row = [] := by
  unfold rowValAbs; rw [if_neg h]

lemma rowValRel_of_not_sel {data_start data_end apoapsis_time : ℚ} {label : Bool}
    {height : ℚ} {color : String} {row : CrossingRow}
    (h : ¬ selected data_start data_end row) :
    rowValRel data_start data_end apoapsis_time label height color row = [] := by
  unfold rowValRel; rw [if_neg h]

lemma rowValAbs_ne_nil_iff (start stop : ℚ) (label : Bool) (color : String)
    (row : CrossingRow) :
    rowValAbs start stop label color row ≠ [] ↔ selected start stop row := by
  unfold rowValAbs
  by_cases hsel : selected start stop row <;> simp [hsel]

lemma rowValRel_ne_nil_iff (data_start data_end apoapsis_time : ℚ) (label : Bool)
    (height : ℚ) (color : String) (row : CrossingRow) :
    rowValRel data_start data_end apoapsis_time label height color row ≠ [] ↔
      selected data_start data_end row := by
  unfold rowValRel
  by_cases hsel : selected data_start data_end row <;> simp [hsel]

lemma buildRows_spec : ∀ (s e sx sy sz : List ℚ) (t : List String),
    e.length = s.length → sx.length = s.length → sy.length = s.length →
    sz.length = s.length → t.length = s.length →
    (buildRows s e sx sy sz t).length = s.length
    ∧ (buildRows s e sx sy sz t).map (fun r => r.start) = s
    ∧ (buildRows s e sx sy sz t).map (fun r => r.«end») = e
    ∧ (buildRows s e sx sy sz t).map (fun r => r.start_x_msm) = sx
    ∧ (buildRows s e sx sy sz t).map (fun r => r.start_y_msm) = sy
    ∧ (buildRows s e sx sy sz t).map (fun r => r.start_z_msm) = sz
    ∧ (buildRows s e sx sy sz t).map (fun r => r.type) = t := by
  intro s
  induction s with
  | nil =>
    intro e sx sy sz t he hx hy hz ht
    simp only [List.length_nil, List.length_eq_zero] at he hx hy hz ht
    subst he; subst hx; subst hy; subst hz; subst ht
    simp [buildRows]
  | cons a as ih =>
    intro e sx sy sz t he hx hy hz ht
    cases e with
    | nil => simp at he
    | cons b bs =>
    cases sx with
    | nil => simp at hx
    | cons c cs =>
    cases sy with
    | nil => simp at hy
    | cons d ds =>
    cases sz with
    | nil => simp at hz
    | cons f fs =>
    cases t with
    | nil => simp at ht
    | cons g gs =>
    simp only [List.length_cons, Nat.succ.injEq] at he hx hy hz ht
    obtain ⟨l1, m1, m2, m3, m4, m5, m6⟩ := ih bs cs ds fs gs he hx hy hz ht
    simp [buildRows, l1, m1, m2, m3, m4, m5, m6]

/-- Caller-visible state of an overlay call: the loaded crossings table held
by the caller and the artifacts on the caller-owned axis. -/
structure Session where
  crossings : List CrossingRow
  ax : List Artifact

/-- `Plot_Crossing_Intervals` as a transition on the caller's state (the spec
calls this operation OverlayAbsolute): the call reads `s.crossings` and
replaces the axis contents with the result of the drawing loop. -/
def OverlayAbsolute (s : Session) (start stop : ℚ) (label : Bool)
    (color : String) : Except PyError Session :=
  match Plot_Crossing_Intervals s.ax start stop s.crossings label color with
  | Except.error e => Except.error e
  | Except.ok ax => Except.ok { crossings := s.crossings, ax := ax }

/-- `Plot_Crossings_As_Minutes_Before` as a transition on the caller's state
(the spec calls this operation OverlayRelativeToApoapsis). -/
def OverlayRelativeToApoapsis (s : Session)
    (data_start data_end apoapsis_time : ℚ) (label : Bool) (height : ℚ)
    (color : String) : Except PyError Session :=
  match Plot_Crossings_As_Minutes_Before s.ax s.crossings data_start data_end
      apoapsis_time label height color with
  | Except.error e => Except.error e
  | Except.ok ax => Except.ok { crossings := s.crossings, ax := ax }

/-! ### Claim theorems -/

lemma plot_abs_singleton (ax : List Artifact) (ws we : ℚ) (label : Bool)
    (color : String) (row : CrossingRow) :
    Plot_Crossing_Intervals ax ws we [row] label color =
      Except.ok (ax ++ rowValAbs ws we label color row) := by
  rw [Plot_Crossing_Intervals_eq]; simp

lemma plot_rel_singleton (ax : List Artifact) (ws we T ht : ℚ) (label : Bool)
    (color : String) (row : CrossingRow) :
    Plot_Crossings_As_Minutes_Before ax [row] ws we T label ht color =
      Except.ok (ax ++ rowValRel ws we T label ht color row) := by
  rw [Plot_Crossings_As_Minutes_Before_eq]; simp

/-- C1: both overlay operations draw markers for an interval iff the
interval's `start` lies strictly inside the open window `(ws, we)` or its
`end` does; in particular an interval whose `start` equals `ws` exactly (and
whose `end` is not strictly inside) is not drawn. -/
theorem selection_open_interval_iff (ws we T ht : ℚ) (label : Bool)
    (color : String) (row : CrossingRow) (ax : List Artifact) :
    ((∃ arts, rowArtifactsAbs ws we label color row = Except.ok arts ∧ arts ≠ [])
        ↔ ((ws < row.start ∧ row.start < we) ∨ (ws < row.«end» ∧ row.«end» < we)))
  ∧ ((∃ arts, rowArtifactsRel ws we T label ht color row = Except.ok arts ∧ arts ≠ [])
        ↔ ((ws < row.start ∧ row.start < we) ∨ (ws < row.«end» ∧ row.«end» < we)))
  ∧ ((∃ out, Plot_Crossing_Intervals ax ws we [row] label color = Except.ok out ∧ out ≠ ax)
        ↔ ((ws < row.start ∧ row.start < we) ∨ (ws < row.«end» ∧ row.«end» < we)))
  ∧ ((∃ out, Plot_Crossings_As_Minutes_Before ax [row] ws we T label ht color
          = Except.ok out ∧ out ≠ ax)
        ↔ ((ws < row.start ∧ row.start < we) ∨ (ws < row.«end» ∧ row.«end» < we)))
  ∧ (row.start = ws → ¬(ws < row.«end» ∧ row.«end» < we) →
      Plot_Crossing_Intervals ax ws we [row] label color = Except.ok ax
        ∧ Plot_Crossings_As_Minutes_Before ax [row] ws we T label ht color = Except.ok ax) := by
  refine ⟨?_, ?_, ?_, ?_, ?_⟩
  · rw [← selected_iff]
    constructor
    · rintro ⟨arts, ha, hne⟩
      rw [rowArtifactsAbs_eq] at ha
      obtain rfl : rowValAbs ws we label color row = arts := by
        simpa using ha
      exact (rowValAbs_ne_nil_iff ws we label color row).mp hne
    · intro hsel
      exact ⟨_, rowArtifactsAbs_eq ws we label color row,
        (rowValAbs_ne_nil_iff ws we label color row).mpr hsel⟩
  · rw [← selected_iff]
    constructor
    · rintro ⟨arts, ha, hne⟩
      rw [rowArtifactsRel_eq] at ha
      obtain rfl : rowValRel ws we T label ht color row = arts := by
        simpa using ha
      exact (rowValRel_ne_nil_iff ws we T label ht color row).mp hne
    · intro hsel
      exact ⟨_, rowArtifactsRel_eq ws we T label ht color row,
        (rowValRel_ne_nil_iff ws we T label ht color row).mpr hsel⟩
  · rw [← selected_iff, ← rowValAbs_ne_nil_iff ws we label color row]
    constructor
    · rintro ⟨out, ha, hne⟩
      rw [plot_abs_singleton] at ha
      obtain rfl : ax ++ rowValAbs ws we label color row = out := by simpa using ha
      intro hnil
      exact hne (by simp [hnil])
    · intro hne
      exact ⟨_, plot_abs_singleton ax ws we label color row, by simpa using hne⟩
  · rw [← selected_iff, ← rowValRel_ne_nil_iff ws we T label ht color row]
    constructor
    · rintro ⟨out, ha, hne⟩
      rw [plot_rel_singleton] at ha
      obtain rfl : ax ++ rowValRel ws we T label ht color row = out := by simpa using ha
      intro hnil
      exact hne (by simp [hnil])
    · intro hne
      exact ⟨_, plot_rel_singleton ax ws we T ht label color row, by simpa using hne⟩
  · intro hs hno
    have hnot : ¬ selected ws we row := by
      rw [selected_iff]
      rintro (⟨h1, _⟩ | h2)
      · rw [hs] at h1; exact lt_irrefl _ h1
      · exact hno h2
    constructor
    · rw [plot_abs_singleton, rowValAbs_of_not_sel hnot]; simp
    · rw [plot_rel_singleton, rowValRel_of_not_sel hnot]; simp

/-- C1 witness: with window `(5, 6)`, an interval starting exactly at `5`
whose end `7` is not strictly inside is not drawn by either operation. -/
theorem selection_open_interval_iff_witness :
    Plot_Crossing_Intervals [] 5 6 [⟨5, 7, 0, 0, 0, "bow_shock"⟩] true "orange"
        = Except.ok []
      ∧ Plot_Crossings_As_Minutes_Before [] [⟨5, 7, 0, 0, 0, "bow_shock"⟩] 5 6 9
          true (9/10) "orange" = Except.ok [] :=
  (selection_open_interval_iff 5 6 9 (9/10) true "orange"
      ⟨5, 7, 0, 0, 0, "bow_shock"⟩ []).2.2.2.2 (by decide) (by decide)

/-- C2 counterexample: with a zero-width window (`windowStart = windowEnd = 5`)
and a crossing interval present, both overlay operations return normally with
nothing drawn — no `InvalidWindowError` (or any other error) is raised, so the
claimed guard does not exist in the code. -/
theorem zero_width_window_error_counterexample :
    Plot_Crossing_Intervals [] 5 5 [⟨3, 7, 0, 0, 0, "bow_shock"⟩] true "orange"
        = Except.ok []
      ∧ Plot_Crossings_As_Minutes_Before [] [⟨3, 7, 0, 0, 0, "bow_shock"⟩] 5 5 9
          true (9/10) "orange" = Except.ok [] := by
  constructor <;> rfl

/-- C2 (amended): calling either overlay operation with
`windowStart = windowEnd` terminates normally (returns `Except.ok`, raising no
error of any kind — no `InvalidWindowError` exists in the code, and the
division by `windowEnd - windowStart` is never reached because no interval
passes the strict selection test). -/
theorem zero_width_window_no_error (A T ht : ℚ) (label : Bool) (color : String)
    (ax : List Artifact) (crossings : List CrossingRow) :
    (∃ out, Plot_Crossing_Intervals ax A A crossings label color = Except.ok out)
      ∧ (∃ out, Plot_Crossings_As_Minutes_Before ax crossings A A T label ht color
          = Except.ok out) :=
  ⟨⟨_, Plot_Crossing_Intervals_eq ax A A crossings label color⟩,
    ⟨_, Plot_Crossings_As_Minutes_Before_eq ax crossings A A T label ht color⟩⟩

/-- C4: an interval with `start < A` and `end > B` (both endpoints strictly
outside the window, fully spanning it) is not drawn by either overlay
operation: its loop iteration produces no artifacts, and the axis is
unchanged. -/
theorem spanning_interval_not_drawn (A B T ht : ℚ) (label : Bool)
    (color : String) (ax : List Artifact) (row : CrossingRow)
    (h1 : row.start < A) (h2 : B < row.«end») :
    rowArtifactsAbs A B label color row = Except.ok []
      ∧ rowArtifactsRel A B T label ht color row = Except.ok []
      ∧ Plot_Crossing_Intervals ax A B [row] label color = Except.ok ax
      ∧ Plot_Crossings_As_Minutes_Before ax [row] A B T label ht color = Except.ok ax := by
  have hnot : ¬ selected A B row := by
    rw [selected_iff]
    rintro (⟨ha, _⟩ | ⟨_, hb⟩)
    · exact absurd ha (not_lt.mpr (le_of_lt h1))
    · exact absurd hb (not_lt.mpr (le_of_lt h2))
  refine ⟨?_, ?_, ?_, ?_⟩
  · rw [rowArtifactsAbs_eq, rowValAbs_of_not_sel hnot]
  · rw [rowArtifactsRel_eq, rowValRel_of_not_sel hnot]
  · rw [plot_abs_singleton, rowValAbs_of_not_sel hnot]; simp
  · rw [plot_rel_singleton, rowValRel_of_not_sel hnot]; simp

/-- C4 witness: the interval `[5, 25]` spans the window `(10, 20)` and draws
nothing in either operation. -/
theorem spanning_interval_not_drawn_witness :
    rowArtifactsAbs 10 20 true "orange" ⟨5, 25, 0, 0, 0, "bow_shock"⟩ = Except.ok []
      ∧ rowArtifactsRel 10 20 15 true (9/10) "orange" ⟨5, 25, 0, 0, 0, "bow_shock"⟩
          = Except.ok []
      ∧ Plot_Crossing_Intervals [] 10 20 [⟨5, 25, 0, 0, 0, "bow_shock"⟩] true "orange"
          = Except.ok []
      ∧ Plot_Crossings_As_Minutes_Before [] [⟨5, 25, 0, 0, 0, "bow_shock"⟩] 10 20 15
          true (9/10) "orange" = Except.ok [] :=
  spanning_interval_not_drawn 10 20 15 (9/10) true "orange" []
    ⟨5, 25, 0, 0, 0, "bow_shock"⟩ (by decide) (by decide)

/-- C10: with `windowStart = windowEnd = A` the strict-inequality selection
test is false for every interval, both overlay operations terminate normally
with the axis unchanged, and (since no row is selected) the unguarded division
by `windowEnd - windowStart` is never reached. -/
theorem zero_width_window_draws_nothing (A T ht : ℚ) (label : Bool)
    (color : String) (ax : List Artifact) (crossings : List CrossingRow) :
    (∀ row : CrossingRow,
        ¬((row.start > A ∧ row.start < A) ∨ (row.«end» > A ∧ row.«end» < A)))
      ∧ Plot_Crossing_Intervals ax A A crossings label color = Except.ok ax
      ∧ Plot_Crossings_As_Minutes_Before ax crossings A A T label ht color
          = Except.ok ax := by
  have hnot : ∀ row : CrossingRow, ¬ selected A A row := fun row h =>
    absurd (selected_lt h) (lt_irrefl A)
  refine ⟨fun row => hnot row, ?_, ?_⟩
  · rw [Plot_Crossing_Intervals_eq]
    have : crossings.map (rowValAbs A A label color)
        = crossings.map (fun _ => ([] : List Artifact)) :=
      List.map_congr_left (fun row _ => rowValAbs_of_not_sel (hnot row))
    simp [this]
  · rw [Plot_Crossings_As_Minutes_Before_eq]
    have : crossings.map (rowValRel A A T label ht color)
        = crossings.map (fun _ => ([] : List Artifact)) :=
      List.map_congr_left (fun row _ => rowValRel_of_not_sel (hnot row))
    simp [this]

/-- C10 witness: concrete zero-width window `A = 4` with the interval
`[2, 6]`: the selection test is false and both operations leave the axis
unchanged. -/
theorem zero_width_window_draws_nothing_witness :
    (¬(((2:ℚ) > 4 ∧ (2:ℚ) < 4) ∨ ((6:ℚ) > 4 ∧ (6:ℚ) < 4)))
      ∧ Plot_Crossing_Intervals [] 4 4 [⟨2, 6, 0, 0, 0, "bow_shock"⟩] true "orange"
          = Except.ok []
      ∧ Plot_Crossings_As_Minutes_Before [] [⟨2, 6, 0, 0, 0, "bow_shock"⟩] 4 4 8
          true (9/10) "orange" = Except.ok [] :=
  have h := zero_width_window_draws_nothing 4 8 (9/10) true "orange" []
    [⟨2, 6, 0, 0, 0, "bow_shock"⟩]
  ⟨h.1 ⟨2, 6, 0, 0, 0, "bow_shock"⟩, h.2.1, h.2.2⟩

/-- C5: in `Plot_Crossings_As_Minutes_Before`, every vertical line drawn for a
selected interval sits at `(apoapsis_time - t) / 60` (total minutes before the
apoapsis reference) where `t` is the interval's start or end, and both such
lines are drawn. -/
theorem minutes_before_apoapsis_positions (ws we T ht : ℚ) (label : Bool)
    (color : String) (row : CrossingRow)
    (hsel : (ws < row.start ∧ row.start < we) ∨ (ws < row.«end» ∧ row.«end» < we)) :
    ∃ out, rowArtifactsRel ws we T label ht color row = Except.ok out
      ∧ Artifact.axvline ((T - row.start) / 60) color "dashed" ∈ out
      ∧ Artifact.axvline ((T - row.«end») / 60) color "dashed" ∈ out
      ∧ ∀ x c ls, Artifact.axvline x c ls ∈ out →
          x = (T - row.start) / 60 ∨ x = (T - row.«end») / 60 := by
  have hsel' : selected ws we row := (selected_iff ws we row).mpr hsel
  refine ⟨_, rowArtifactsRel_eq ws we T label ht color row, ?_, ?_, ?_⟩
  · unfold rowValRel; rw [if_pos hsel']; cases label <;> simp
  · unfold rowValRel; rw [if_pos hsel']; cases label <;> simp
  · unfold rowValRel; rw [if_pos hsel']
    intro x c ls hx
    cases label <;> simp at hx <;> tauto

/-- C5 witness: with `apoapsis_time = 1000` s, an interval starting 10 minutes
earlier (`start = 400` s) draws its start line at `x = +10`, and one starting
5 minutes later (`start = 1300` s) draws it at `x = -5`. -/
theorem minutes_before_apoapsis_positions_witness :
    (∃ out, rowArtifactsRel 0 2000 1000 true (9/10) "orange"
        ⟨400, 500, 0, 0, 0, "bow_shock"⟩ = Except.ok out
      ∧ Artifact.axvline 10 "orange" "dashed" ∈ out)
    ∧ (∃ out, rowArtifactsRel 0 2000 1000 true (9/10) "orange"
        ⟨1300, 1400, 0, 0, 0, "bow_shock"⟩ = Except.ok out
      ∧ Artifact.axvline (-5) "orange" "dashed" ∈ out) := by
  constructor
  · obtain ⟨out, h1, h2, -, -⟩ := minutes_before_apoapsis_positions 0 2000 1000 (9/10)
      true "orange" ⟨400, 500, 0, 0, 0, "bow_shock"⟩ (by decide)
    refine ⟨out, h1, ?_⟩
    have hx : ((1000 : ℚ) - 400) / 60 = 10 := by norm_num
    rw [← hx]; exact h2
  · obtain ⟨out, h1, h2, -, -⟩ := minutes_before_apoapsis_positions 0 2000 1000 (9/10)
      true "orange" ⟨1300, 1400, 0, 0, 0, "bow_shock"⟩ (by decide)
    refine ⟨out, h1, ?_⟩
    have hx : ((1000 : ℚ) - 1300) / 60 = -5 := by norm_num
    rw [← hx]; exact h2

/-- C6: with labels enabled, the label of a selected interval sits at the
axis-relative horizontal coordinate `(midpoint - ws) / (we - ws)` with
`midpoint = start + (end - start) / 2`, computed in absolute time in BOTH
overlay operations — the same value even though the relative operation draws
its lines in minutes-before-apoapsis coordinates. -/
theorem label_position_absolute_fraction (ws we T ht : ℚ) (color : String)
    (row : CrossingRow)
    (hsel : (ws < row.start ∧ row.start < we) ∨ (ws < row.«end» ∧ row.«end» < we)) :
    ∃ outA outR,
      rowArtifactsAbs ws we true color row = Except.ok outA
      ∧ rowArtifactsRel ws we T true ht color row = Except.ok outR
      ∧ Artifact.text ((row.start + (row.«end» - row.start) / 2 - ws) / (we - ws))
          (9/10) (labelText row.type) color ∈ outA
      ∧ Artifact.text ((row.start + (row.«end» - row.start) / 2 - ws) / (we - ws))
          ht (labelText row.type) color ∈ outR
      ∧ (∀ x y s c, Artifact.text x y s c ∈ outA →
          x = (row.start + (row.«end» - row.start) / 2 - ws) / (we - ws))
      ∧ (∀ x y s c, Artifact.text x y s c ∈ outR →
          x = (row.start + (row.«end» - row.start) / 2 - ws) / (we - ws)) := by
  have hsel' : selected ws we row := (selected_iff ws we row).mpr hsel
  refine ⟨_, _, rowArtifactsAbs_eq ws we true color row,
    rowArtifactsRel_eq ws we T true ht color row, ?_, ?_, ?_, ?_⟩
  · unfold rowValAbs; rw [if_pos hsel']; simp
  · unfold rowValRel; rw [if_pos hsel']; simp
  · unfold rowValAbs; rw [if_pos hsel']
    intro x y s c hx
    simp at hx
    tauto
  · unfold rowValRel; rw [if_pos hsel']
    intro x y s c hx
    simp at hx
    tauto

/-- C6 witness: window `[0, 100]` (width 100 s), interval `[10, 40]` with
midpoint `25 = 0 + 25` s: both operations place the label at axis-relative
`x = 1/4`, the relative one with its own label height `1/2`. -/
theorem label_position_absolute_fraction_witness :
    ∃ outA outR,
      rowArtifactsAbs 0 100 true "orange" ⟨10, 40, 0, 0, 0, "magnetopause_crossing"⟩
          = Except.ok outA
      ∧ rowArtifactsRel 0 100 7 true (1/2) "orange"
          ⟨10, 40, 0, 0, 0, "magnetopause_crossing"⟩ = Except.ok outR
      ∧ Artifact.text (1/4) (9/10) "MAGNETOPAUSE CROSSING" "orange" ∈ outA
      ∧ Artifact.text (1/4) (1/2) "MAGNETOPAUSE CROSSING" "orange" ∈ outR := by
  obtain ⟨outA, outR, h1, h2, h3, h4, -, -⟩ := label_position_absolute_fraction
    0 100 7 (1/2) "orange" ⟨10, 40, 0, 0, 0, "magnetopause_crossing"⟩ (by decide)
  refine ⟨outA, outR, h1, h2, ?_, ?_⟩
  · have hx : ((10 : ℚ) + (40 - 10) / 2 - 0) / (100 - 0) = 1/4 := by norm_num
    rw [← hx]; exact h3
  · have hx : ((10 : ℚ) + (40 - 10) / 2 - 0) / (100 - 0) = 1/4 := by norm_num
    rw [← hx]; exact h4

/-- C7: with labels enabled, the label text rendered for a selected interval
(in either overlay operation) is exactly the interval's `type` uppercased with
every underscore replaced by a space. -/
theorem label_text_normalization (ws we T ht : ℚ) (color : String)
    (row : CrossingRow)
    (hsel : (ws < row.start ∧ row.start < we) ∨ (ws < row.«end» ∧ row.«end» < we)) :
    ∃ outA outR,
      rowArtifactsAbs ws we true color row = Except.ok outA
      ∧ rowArtifactsRel ws we T true ht color row = Except.ok outR
      ∧ (∃ x, Artifact.text x (9/10) (labelText row.type) color ∈ outA)
      ∧ (∃ x, Artifact.text x ht (labelText row.type) color ∈ outR)
      ∧ (∀ x y s c, Artifact.text x y s c ∈ outA → s = labelText row.type)
      ∧ (∀ x y s c, Artifact.text x y s c ∈ outR → s = labelText row.type) := by
  have hsel' : selected ws we row := (selected_iff ws we row).mpr hsel
  refine ⟨_, _, rowArtifactsAbs_eq ws we true color row,
    rowArtifactsRel_eq ws we T true ht color row, ?_, ?_, ?_, ?_⟩
  · unfold rowValAbs; rw [if_pos hsel']
    exact ⟨(row.start + (row.«end» - row.start) / 2 - ws) / (we - ws), by simp⟩
  · unfold rowValRel; rw [if_pos hsel']
    exact ⟨(row.start + (row.«end» - row.start) / 2 - ws) / (we - ws), by simp⟩
  · unfold rowValAbs; rw [if_pos hsel']
    intro x y s c hx
    simp at hx
    tauto
  · unfold rowValRel; rw [if_pos hsel']
    intro x y s c hx
    simp at hx
    tauto

/-- C7 witness: a selected interval of type `"magnetopause_crossing"` renders
its label as `"MAGNETOPAUSE CROSSING"` in both overlay operations. -/
theorem label_text_normalization_witness :
    ∃ outA outR,
      rowArtifactsAbs 0 100 true "orange" ⟨10, 40, 0, 0, 0, "magnetopause_crossing"⟩
          = Except.ok outA
      ∧ rowArtifactsRel 0 100 7 true (9/10) "orange"
          ⟨10, 40, 0, 0, 0, "magnetopause_crossing"⟩ = Except.ok outR
      ∧ (∃ x, Artifact.text x (9/10) "MAGNETOPAUSE CROSSING" "orange" ∈ outA)
      ∧ (∃ x, Artifact.text x (9/10) "MAGNETOPAUSE CROSSING" "orange" ∈ outR) := by
  obtain ⟨outA, outR, h1, h2, h3, h4, -, -⟩ := label_text_normalization
    0 100 7 (9/10) "orange" ⟨10, 40, 0, 0, 0, "magnetopause_crossing"⟩ (by decide)
  have hs : labelText "magnetopause_crossing" = "MAGNETOPAUSE CROSSING" := by decide
  rw [hs] at h3 h4
  exact ⟨outA, outR, h1, h2, h3, h4⟩

/-- C3: for a well-formed source record (all six required columns present and
aligned), `Load_Crossings` returns a table with the same row count whose six
columns are the source's `start, end, start_x_msm, start_y_msm, start_z_msm`
and `Type` (renamed `type`) copied unchanged — for ANY values (including
`none`) of the source's `end_x_msm`, `end_y_msm`, `end_z_msm` columns, which
are not carried into the result. -/
theorem load_crossings_roundtrip (s e sx sy sz : List ℚ) (t : List String)
    (ex ey ez : Option (List ℚ))
    (he : e.length = s.length) (hx : sx.length = s.length)
    (hy : sy.length = s.length) (hz : sz.length = s.length)
    (ht : t.length = s.length) :
    ∃ tbl, Load_Crossings (PickleFile.decoded
        ⟨some s, some e, some sx, ex, some sy, ey, some sz, ez, some t⟩)
          = Except.ok tbl
      ∧ tbl.length = s.length
      ∧ tbl.map (fun r => r.start) = s
      ∧ tbl.map (fun r => r.«end») = e
      ∧ tbl.map (fun r => r.start_x_msm) = sx
      ∧ tbl.map (fun r => r.start_y_msm) = sy
      ∧ tbl.map (fun r => r.start_z_msm) = sz
      ∧ tbl.map (fun r => r.type) = t :=
  ⟨buildRows s e sx sy sz t, rfl, buildRows_spec s e sx sy sz t he hx hy hz ht⟩

/-- C3 witness: a concrete two-row record (with `end_*_msm` columns present in
the source) loads into a two-row table with the six fields copied unchanged. -/
theorem load_crossings_roundtrip_witness :
    ∃ tbl, Load_Crossings (PickleFile.decoded
        ⟨some [1, 2], some [3, 4], some [5, 6], some [100, 200], some [7, 8],
          some [300, 400], some [9, 11], some [500, 600],
          some ["bow_shock", "magnetopause_crossing"]⟩)
          = Except.ok tbl
      ∧ tbl.length = ([1, 2] : List ℚ).length
      ∧ tbl.map (fun r => r.start) = [1, 2]
      ∧ tbl.map (fun r => r.«end») = [3, 4]
      ∧ tbl.map (fun r => r.start_x_msm) = [5, 6]
      ∧ tbl.map (fun r => r.start_y_msm) = [7, 8]
      ∧ tbl.map (fun r => r.start_z_msm) = [9, 11]
      ∧ tbl.map (fun r => r.type) = ["bow_shock", "magnetopause_crossing"] :=
  load_crossings_roundtrip [1, 2] [3, 4] [5, 6] [7, 8] [9, 11]
    ["bow_shock", "magnetopause_crossing"]
    (some [100, 200]) (some [300, 400]) (some [500, 600])
    (by decide) (by decide) (by decide) (by decide) (by decide)

/-- C8: `Load_Crossings` fails with `notFoundError` when the path does not
resolve to a readable file, with `deserializationError` when the content is
not a valid record, and with `schemaError` when any of the six required source
columns is absent — in which case no (partial) table is produced. -/
theorem load_crossings_errors :
    Load_Crossings PickleFile.notFound = Except.error LoadError.notFoundError
  ∧ Load_Crossings PickleFile.malformed = Except.error LoadError.deserializationError
  ∧ ∀ rec : SourceRecord,
      (rec.start? = none ∨ rec.end? = none ∨ rec.start_x_msm? = none ∨
        rec.start_y_msm? = none ∨ rec.start_z_msm? = none ∨ rec.Type? = none) →
      Load_Crossings (PickleFile.decoded rec) = Except.error LoadError.schemaError := by
  refine ⟨rfl, rfl, ?_⟩
  rintro ⟨f1, f2, f3, f4, f5, f6, f7, f8, f9⟩ h
  cases f1 <;> cases f2 <;> cases f3 <;> cases f5 <;> cases f7 <;> cases f9 <;>
    first
      | rfl
      | simp at h

/-- C8 witness: a decoded record missing only the `Type` column fails with
`schemaError` rather than producing a partial table. -/
theorem load_crossings_errors_witness :
    Load_Crossings (PickleFile.decoded
        ⟨some [1], some [2], some [3], none, some [4], none, some [5], none, none⟩)
      = Except.error LoadError.schemaError :=
  load_crossings_errors.2.2
    ⟨some [1], some [2], some [3], none, some [4], none, some [5], none, none⟩
    (Or.inr (Or.inr (Or.inr (Or.inr (Or.inr rfl)))))

/-- C9: neither overlay operation mutates the crossings table: on the explicit
session state (table + caller-owned axis) each call returns normally with the
crossings table identical to the input and the axis only extended by appended
artifacts. -/
theorem overlay_no_table_mutation (s : Session) (ws we T ht : ℚ) (label : Bool)
    (color : String) :
    (∃ s1, OverlayAbsolute s ws we label color = Except.ok s1
        ∧ s1.crossings = s.crossings ∧ ∃ added, s1.ax = s.ax ++ added)
  ∧ (∃ s2, OverlayRelativeToApoapsis s ws we T label ht color = Except.ok s2
        ∧ s2.crossings = s.crossings ∧ ∃ added, s2.ax = s.ax ++ added) := by
  constructor
  · refine ⟨⟨s.crossings,
      s.ax ++ (s.crossings.map (rowValAbs ws we label color)).flatten⟩, ?_, rfl, ⟨_, rfl⟩⟩
    unfold OverlayAbsolute
    rw [Plot_Crossing_Intervals_eq]
  · refine ⟨⟨s.crossings,
      s.ax ++ (s.crossings.map (rowValRel ws we T label ht color)).flatten⟩, ?_, rfl, ⟨_, rfl⟩⟩
    unfold OverlayRelativeToApoapsis
    rw [Plot_Crossings_As_Minutes_Before_eq]

end hermpy
